import Mathlib

/-!
Shallow embedding of the CAD-ESO bridge (a Resgrid-to-ESO incident exporter)
field-mapping and delivery code, together with theorems checking the
specification's claims against it.

Embedded sources:
* `priority.js` — `mapPriorityToEsoCode` and the ESO response-mode constants;
* `src/xml-generator.js` — priority/response-mode derivation, single-unit
  selection, and the template-literal XML rendering;
* `sheets-logger-new.js` — `sheetCallRow` response-mode and unit selection;
* the final-with-sheets script (`unnamed/part_003`) — `activityEvent`,
  `stripTags`, the `generateXML` / `logCallData` timestamp cascades, the
  response-mode computations of both sinks, and the unit-roster dedup;
* `src/retry-util.js` — `withRetry`;
* `src/sftp-client.js` — the fingerprint cache and `uploadFileToSFTP`.

Modelling conventions: JavaScript strings are Lean `String`s; JS truthiness of
a string is comparison with `""`; absent values are `Option`; JS arrays are
`List`s; the asynchronous upload attempts are a function from the attempt
index to that attempt's outcome.
-/

set_option maxRecDepth 8192

/-- Lowercase mapping for ASCII letters, as `toLowerCase` acts on ASCII input. -/
def lowerAscii (c : Char) : Char :=
  if 'A' ≤ c ∧ c ≤ 'Z' then Char.ofNat (c.toNat + 32) else c

/-- Lowercase a whole character list. -/
def lowerList (l : List Char) : List Char := l.map lowerAscii

/-- Boolean test that `pat` is a leading run of the second list. -/
def startsWithList : List Char → List Char → Bool
  | [], _ => true
  | _ :: _, [] => false
  | p :: ps, c :: cs => p == c && startsWithList ps cs

/-- Boolean test that `pat` occurs contiguously somewhere in the second list. -/
def containsSubList (pat : List Char) : List Char → Bool
  | [] => startsWithList pat []
  | c :: rest => startsWithList pat (c :: rest) || containsSubList pat rest

/-- Characters matched by the JS regex dot: anything but a line terminator. -/
def dotChar (c : Char) : Bool :=
  !(c == '\n' || c == '\r' || c == Char.ofNat 0x2028 || c == Char.ofNat 0x2029)

/-- Match of one regex alternative of the form `non.?<tail>` at the head of `l`:
`non`, then an optional single non-terminator character, then `tail`. -/
def nonDotTailAt (tail : List Char) (l : List Char) : Bool :=
  startsWithList ['n', 'o', 'n'] l &&
    (startsWithList tail (l.drop 3) ||
      (match l.drop 3 with
       | c :: rest => dotChar c && startsWithList tail rest
       | [] => false))

/-- Match of `non.?emergency|non.?urgent|routine|scheduled` at the head of `l`. -/
def nonEmergencyAlternativesAt (l : List Char) : Bool :=
  nonDotTailAt "emergency".toList l || nonDotTailAt "urgent".toList l ||
    startsWithList "routine".toList l || startsWithList "scheduled".toList l

/-- Existence of a match of the alternatives at some position of `l`. -/
def scanList : List Char → Bool
  | [] => false
  | c :: rest => nonEmergencyAlternativesAt (c :: rest) || scanList rest

/-- Model of `/non.?emergency|non.?urgent|routine|scheduled/i.test(s)`, the
keyword test shared verbatim by `priority.js`, `src/xml-generator.js` and the
final-with-sheets script. Case folding lowers the subject string; the pattern
is already lowercase ASCII. -/
def nonEmergencyRegexMatch (s : String) : Bool := scanList (lowerList s.toList)

/-- ESO code for lights-and-sirens (emergency), from `priority.js`. -/
def ESO_RESPONSE_LIGHTS_SIRENS : String := "390"

/-- ESO code for no-lights-and-sirens (non-emergency), from `priority.js`. -/
def ESO_RESPONSE_NON_LIGHTS_SIRENS : String := "395"

/-- Default response mode, from `priority.js`. -/
def DEFAULT_RESPONSE_MODE : String := ESO_RESPONSE_LIGHTS_SIRENS

/-- `priority.js` `mapPriorityToEsoCode(priorityId, nature)` (lines 18-42):
keyword test on the nature first, then the priority-id switch. -/
def mapPriorityToEsoCode (priorityId nature : String) : String :=
  if !(nature == "") && nonEmergencyRegexMatch nature then
    ESO_RESPONSE_NON_LIGHTS_SIRENS
  else if priorityId == "1559" then ESO_RESPONSE_NON_LIGHTS_SIRENS
  else if priorityId == "1560" then ESO_RESPONSE_LIGHTS_SIRENS
  else DEFAULT_RESPONSE_MODE

/-- Raw activity entry, with the fields the embedded code reads. `Type'`
models the JS `Type` field (actor-type tag). -/
structure ActivityEntry where
  Type' : String := ""
  Name : String := ""
  StatusId : Nat := 0
  Timestamp : String := ""
deriving DecidableEq

/-- Raw dispatch entry, with the fields the embedded code reads. -/
structure DispatchEntry where
  Type' : String := ""
  Name : String := ""
deriving DecidableEq

/-- Raw incident, with the fields the embedded code reads. `Priority` holds
the priority id as a string when present. -/
structure CallData where
  CallId : String := ""
  Nature : String := ""
  Priority : Option String := none
  ClosedOn : String := ""
  UnitsCsv : String := ""
  Dispatches : List DispatchEntry := []
deriving DecidableEq

/-- `src/xml-generator.js` lines 99-107: priority id extraction with the
emergent default `"1560"` when the priority is absent or falsy. -/
def srcGenPriorityId (call : CallData) : String :=
  match call.Priority with
  | none => "1560"
  | some p => if p == "" then "1560" else p

/-- Inline `responseModeMap` object of `src/xml-generator.js` lines 123-126. -/
def srcGenResponseModeMap (priorityId : String) : Option String :=
  if priorityId == "1559" then some "395"
  else if priorityId == "1560" then some "390"
  else none

/-- `src/xml-generator.js` lines 109-128: response mode starts at `"390"`, a
keyword match on the nature sets `"395"`, and only when still at the default
is the priority id mapped (default `"390"`). -/
def srcGenResponseMode (nature priorityId : String) : String :=
  let rm : String :=
    if !(nature == "") && nonEmergencyRegexMatch nature then "395" else "390"
  if rm == "390" then
    match srcGenResponseModeMap priorityId with
    | some v => v
    | none => "390"
  else rm

/-- Response mode of `src/xml-generator.js` as a function of the raw call. -/
def srcGenResponseModeOf (call : CallData) : String :=
  srcGenResponseMode call.Nature (srcGenPriorityId call)

/-- ASCII letter-or-digit test, the character class of `/^[a-zA-Z0-9]+$/`. -/
def asciiAlnum (c : Char) : Bool :=
  ('a' ≤ c && c ≤ 'z') || ('A' ≤ c && c ≤ 'Z') || ('0' ≤ c && c ≤ '9')

/-- Model of `/^[a-zA-Z0-9]+$/.test(u)`: nonempty and all alphanumeric. -/
def alnumTest (u : String) : Bool := !u.toList.isEmpty && u.toList.all asciiAlnum

/-- Candidate-unit validity `u.length <= 9 && /^[a-zA-Z0-9]+$/.test(u)` used by
`src/xml-generator.js` line 154/170-175 and `sheets-logger-new.js` line
302/310-315. -/
def validUnitStr (u : String) : Bool := decide (u.length ≤ 9) && alnumTest u

/-- Whitespace class of the JS `\s` used by `.replace(/\s+/g, ' ')` and
`.trim()`, restricted to the common members. -/
def jsWhitespace (c : Char) : Bool :=
  c == ' ' || c == '\t' || c == '\n' || c == '\r' ||
    c == Char.ofNat 0x0b || c == Char.ofNat 0x0c ||
    c == Char.ofNat 0xa0 || c == Char.ofNat 0xfeff

/-- Model of `.trim()`: drop leading and trailing whitespace. -/
def trimWsList (l : List Char) : List Char :=
  ((l.dropWhile jsWhitespace).reverse.dropWhile jsWhitespace).reverse

/-- Accumulating worker for `jsSplitComma`. -/
def splitCommaAux : List Char → List Char → List String
  | acc, [] => [String.mk acc.reverse]
  | acc, c :: rest =>
    if c == ',' then String.mk acc.reverse :: splitCommaAux [] rest
    else splitCommaAux (c :: acc) rest

/-- Model of the JS `s.split(',')`: every comma separates, the empty string
splits to one empty segment, and a trailing comma yields a trailing empty
segment. -/
def jsSplitComma (s : String) : List String := splitCommaAux [] s.toList

/-- Model of the JS `s.trim()`: strip leading and trailing whitespace. -/
def jsTrim (s : String) : String := String.mk (trimWsList s.toList)

/-- `src/xml-generator.js` lines 150-196: single-unit selection. First valid
entry of the comma-split `UnitsCsv`; otherwise the first valid `Type: 'Unit'`
dispatch; otherwise the empty string. -/
def srcGenUnitName (call : CallData) (dispatches : List DispatchEntry) : String :=
  let fromCsv : Option String :=
    if call.UnitsCsv == "" then none
    else ((jsSplitComma call.UnitsCsv).map jsTrim).find? validUnitStr
  match fromCsv with
  | some u => u
  | none =>
    match (dispatches.filter fun d =>
        d.Type' == "Unit" && !(d.Name == "") && validUnitStr d.Name).head? with
    | some d => d.Name
    | none => ""

/-- `sheets-logger-new.js` lines 254-269: priority id extraction (duplicate of
the generator's logic, embedded separately for its own file). -/
def sheetsLoggerPriorityId (call : CallData) : String :=
  match call.Priority with
  | none => "1560"
  | some p => if p == "" then "1560" else p

/-- Inline `responseModeMap` object of `sheets-logger-new.js` lines 272-275. -/
def sheetsLoggerResponseModeMap (priorityId : String) : Option String :=
  if priorityId == "1560" then some "390"
  else if priorityId == "1559" then some "395"
  else none

/-- `sheets-logger-new.js` line 276: response-mode code from the priority id
alone (no keyword test in this file), default `"390"`. -/
def sheetsLoggerResponseMode (priorityId : String) : String :=
  match sheetsLoggerResponseModeMap priorityId with
  | some v => v
  | none => "390"

/-- `sheets-logger-new.js` line 277: human label for the response-mode code. -/
def sheetsLoggerResponseModeText (responseMode : String) : String :=
  if responseMode == "390" then "Lights & Sirens" else "No Lights & Sirens"

/-- Response-mode code of `sheets-logger-new.js` as a function of the call. -/
def sheetsLoggerResponseModeOf (call : CallData) : String :=
  sheetsLoggerResponseMode (sheetsLoggerPriorityId call)

/-- `sheets-logger-new.js` lines 299-327: single-unit selection (line-for-line
duplicate of the generator's, embedded separately for its own file). -/
def sheetsLoggerUnitName (call : CallData) (dispatches : List DispatchEntry) : String :=
  let fromCsv : Option String :=
    if call.UnitsCsv == "" then none
    else ((jsSplitComma call.UnitsCsv).map jsTrim).find? validUnitStr
  match fromCsv with
  | some u => u
  | none =>
    match (dispatches.filter fun d =>
        d.Type' == "Unit" && !(d.Name == "") && validUnitStr d.Name).head? with
    | some d => d.Name
    | none => ""

/-- Rest of a character list after the first `>` character, if one occurs:
the span consumed by one match of `/<[^>]*>/` starting just after its `<`. -/
def dropTag : List Char → Option (List Char)
  | [] => none
  | c :: rest => if c == '>' then some rest else dropTag rest

/-- Length bound for `dropTag`: the rest after the closing bracket is shorter. -/
theorem dropTag_length : ∀ l rest, dropTag l = some rest → rest.length < l.length := by
  intro l
  induction l with
  | nil => intro rest h; simp [dropTag] at h
  | cons c cs ih =>
    intro rest h
    unfold dropTag at h
    by_cases hc : (c == '>') = true
    · simp [hc] at h
      subst h
      simp
    · simp [hc] at h
      exact Nat.lt_trans (ih rest h) (by simp)

/-- Fuel-driven worker for `stripTagsAux`. The fuel bounds the input length,
so the fuel-exhausted branch is unreachable whenever `fuel ≥ l.length`;
structural recursion on the fuel keeps the function kernel-reducible. -/
def stripTagsGo : Nat → List Char → List Char
  | 0, l => l
  | _ + 1, [] => []
  | fuel + 1, c :: rest =>
    if c == '<' then
      match dropTag rest with
      | some remaining => ' ' :: stripTagsGo fuel remaining
      | none => c :: stripTagsGo fuel rest
    else c :: stripTagsGo fuel rest

/-- Model of `.replace(/<[^>]*>/g, ' ')`: each complete angle-bracket tag
becomes a single space; a `<` with no later `>` is kept verbatim. -/
def stripTagsAux (l : List Char) : List Char := stripTagsGo l.length l

/-- Model of `.replace(/\s+/g, ' ')`: each maximal whitespace run becomes one
space. The flag records whether the previous character was whitespace. -/
def collapseWsAux : Bool → List Char → List Char
  | _, [] => []
  | prevWs, c :: rest =>
    if jsWhitespace c then
      if prevWs then collapseWsAux true rest else ' ' :: collapseWsAux true rest
    else c :: collapseWsAux false rest

/-- `part_003` `stripTags` (lines 498-503): strip tags, collapse whitespace,
trim. -/
def stripTags (html : String) : String :=
  String.mk (trimWsList (collapseWsAux false (stripTagsAux html.toList)))

/-- `part_003` `activityEvent` (lines 511-519), numeric branch: first entry
whose `StatusId` equals the argument, with no actor-type filter. -/
def activityEvent (act : List ActivityEntry) (statusId : Nat) : Option ActivityEntry :=
  act.find? fun e => e.StatusId == statusId

/-- Reading `evt.Timestamp` where `evt` may be the empty object `{}` (the
`find || {}` fallback): absent reads as the empty string, matching how the
falsy `undefined` behaves in the `||` chains that consume it. -/
def evtTimestamp (evt : Option ActivityEntry) : String :=
  match evt with
  | some e => e.Timestamp
  | none => ""

/-- JS short-circuit `a || b` on strings: `a` unless it is empty. -/
def jsOr (a b : String) : String := if a == "" then b else a

/-- The five derived lifecycle timestamps. -/
structure DerivedTimes where
  enRoute : String
  onScene : String
  atPatient : String
  cleared : String
  backInService : String
deriving DecidableEq

/-- `part_003` `generateXML` lines 541-564: the XML-sink timestamp cascade.
Cleared falls through StatusId 8, 9, 2, then `call.ClosedOn`; back-in-service
falls through StatusId 9, 2, then 8. -/
def part003XmlTimes (call : CallData) (activity : List ActivityEntry) : DerivedTimes :=
  let enRouteEvt := activityEvent activity 5
  let onSceneEvt := activityEvent activity 6
  let atPatientEvt := activityEvent activity 3
  let clearedEvt := activityEvent activity 8
  let returningEvt := activityEvent activity 9
  let availableEvt := activityEvent activity 2
  { enRoute := jsOr (evtTimestamp enRouteEvt) ""
    onScene := jsOr (evtTimestamp onSceneEvt) ""
    atPatient := jsOr (evtTimestamp atPatientEvt) (jsOr (evtTimestamp onSceneEvt) "")
    cleared := jsOr (evtTimestamp clearedEvt) (jsOr (evtTimestamp returningEvt)
      (jsOr (evtTimestamp availableEvt) (jsOr call.ClosedOn "")))
    backInService := jsOr (evtTimestamp returningEvt)
      (jsOr (evtTimestamp availableEvt) (jsOr (evtTimestamp clearedEvt) "")) }

/-- `part_003` `logCallData` lines 178-195: the tabular-sink timestamp cascade.
Cleared falls through StatusId 8 then `call.ClosedOn`; back-in-service uses the
returning event if it has a timestamp, else the available event, and nothing
else. -/
def part003SheetTimes (call : CallData) (activity : List ActivityEntry) : DerivedTimes :=
  let enRouteEvent := activityEvent activity 5
  let onSceneEvent := activityEvent activity 6
  let atPatientEvent := activityEvent activity 3
  let clearedEvent := activityEvent activity 8
  let returningEvent := activityEvent activity 9
  let availableEvent := activityEvent activity 2
  let backInServiceEvent :=
    if !(evtTimestamp returningEvent == "") then returningEvent else availableEvent
  { enRoute := jsOr (evtTimestamp enRouteEvent) ""
    onScene := jsOr (evtTimestamp onSceneEvent) ""
    atPatient := jsOr (evtTimestamp atPatientEvent) (jsOr (evtTimestamp onSceneEvent) "")
    cleared := jsOr (evtTimestamp clearedEvent) (jsOr call.ClosedOn "")
    backInService := jsOr (evtTimestamp backInServiceEvent) "" }

/-- `part_003` `generateXML` `priorityMap` lookup (line 539): the object
literal maps `'1560'` to `'390'` and `'1559'` to `'395'`. -/
def part003PriorityMap (priority : Option String) : Option String :=
  match priority with
  | some p => if p == "1560" then some "390" else if p == "1559" then some "395" else none
  | none => none

/-- `part_003` `generateXML` line 646: the `ResponseModeToScene` text,
`priorityMap[call.Priority] || '395'`. -/
def part003XmlResponseMode (call : CallData) : String :=
  match part003PriorityMap call.Priority with
  | some v => v
  | none => "395"

/-- `part_003` `logCallData` lines 222-230: the tabular response mode. Starts
at `'395'`, a keyword match on the stripped nature sets `'390'`, and priority
`'1559'` also sets `'390'`. -/
def part003SheetResponseMode (call : CallData) : String :=
  let rm0 : String := "395"
  let rm1 : String :=
    if !(call.Nature == "") && nonEmergencyRegexMatch (stripTags call.Nature) then "390"
    else rm0
  if call.Priority == some "1559" then "390" else rm1

/-- `part_003` lines 154-157 and 591-593: unit names of `Type: 'Unit'`
activity entries, in order. -/
def part003ActivityUnits (activity : List ActivityEntry) : List String :=
  (activity.filter fun a => a.Type' == "Unit").map fun a => a.Name

/-- `part_003` lines 159-166 and 596-603: unit names of `Type: 'Unit'`
dispatch entries with a truthy name, in order. -/
def part003DispatchUnits (dispatches : List DispatchEntry) : List String :=
  (dispatches.filter fun d => d.Type' == "Unit" && !(d.Name == "")).map fun d => d.Name

/-- Boolean membership in a string list, with `==` as in JS Set equality on
strings. -/
def memB (x : String) : List String → Bool
  | [] => false
  | y :: ys => x == y || memB x ys

/-- Model of `[...new Set(l)]`: insertion order with first occurrences kept. -/
def jsSetDedup (l : List String) : List String :=
  l.foldl (fun acc a => if memB a acc then acc else acc ++ [a]) []

/-- `part_003` lines 168-170 and 605-607: the deduplicated combined roster,
activity-derived names first, dispatch-derived names second. -/
def part003UniqueUnits (activity : List ActivityEntry) (dispatches : List DispatchEntry) :
    List String :=
  jsSetDedup (part003ActivityUnits activity ++ part003DispatchUnits dispatches)

/-- Error thrown by an upload attempt, carrying its message. -/
structure JsError where
  message : String
deriving DecidableEq

/-- Backoff delay before the retry that follows failed attempt `k`:
`Math.min(initialDelay * Math.pow(2, retryCount), maxDelay)` when exponential,
else `initialDelay` (`src/retry-util.js` lines 223-227). -/
def backoffDelay (exponential : Bool) (initialDelay maxDelay k : Nat) : Nat :=
  if exponential then min (initialDelay * 2 ^ k) maxDelay else initialDelay

/-- Loop body of `src/retry-util.js` `withRetry` (lines 201-236). `fn k` is
the outcome of attempt number `k` (zero-based); `remaining` is
`maxRetries - retryCount`. Returns the final outcome, the total number of
attempts performed, and the list of delays slept between attempts. An error
with `retryCount >= maxRetries` or a non-retryable error is thrown at once. -/
def withRetryRun {α : Type} (fn : Nat → Except JsError α) (shouldRetry : JsError → Bool)
    (initialDelay maxDelay : Nat) (exponential : Bool) :
    Nat → Nat → Except JsError α × Nat × List Nat
  | retryCount, remaining =>
    match fn retryCount with
    | Except.ok v => (Except.ok v, retryCount + 1, [])
    | Except.error e =>
      match remaining with
      | 0 => (Except.error e, retryCount + 1, [])
      | r + 1 =>
        if shouldRetry e then
          let d := backoffDelay exponential initialDelay maxDelay retryCount
          let rest := withRetryRun fn shouldRetry initialDelay maxDelay exponential
            (retryCount + 1) r
          (rest.1, rest.2.1, d :: rest.2.2)
        else (Except.error e, retryCount + 1, [])

/-- `src/retry-util.js` `withRetry(fn, options)`: run from attempt zero with
the full retry budget. -/
def withRetry {α : Type} (fn : Nat → Except JsError α) (maxRetries initialDelay maxDelay : Nat)
    (exponential : Bool) (shouldRetry : JsError → Bool) : Except JsError α × Nat × List Nat :=
  withRetryRun fn shouldRetry initialDelay maxDelay exponential 0 maxRetries

/-- In-memory fingerprint cache of `src/sftp-client.js` (line 9), modelled as
an insertion-ordered association list like a JS `Map`. -/
abbrev FingerprintCache : Type := List (String × String)

/-- `Map.prototype.get`. -/
def mapGet (m : List (String × String)) (k : String) : Option String :=
  match m with
  | [] => none
  | (k', v) :: rest => if k' == k then some v else mapGet rest k

/-- `Map.prototype.set`: overwrite in place, or append a new key. -/
def mapSet (m : List (String × String)) (k v : String) : List (String × String) :=
  match m with
  | [] => [(k, v)]
  | (k', v') :: rest => if k' == k then (k, v) :: rest else (k', v') :: mapSet rest k v

/-- `src/sftp-client.js` `hasFileChanged` (lines 37-68), with the file read
abstracted to its SHA-256 fingerprint. The cache is updated with the new
fingerprint unconditionally, before any comparison; the returned flag is true
when there was no previous (truthy) fingerprint or it differs. -/
def hasFileChanged (newFingerprint localFilePath remoteFilePath : String)
    (cache : FingerprintCache) : Bool × FingerprintCache :=
  let cacheKey := localFilePath ++ ":" ++ remoteFilePath
  let oldFingerprint := mapGet cache cacheKey
  let cache1 := mapSet cache cacheKey newFingerprint
  match oldFingerprint with
  | none => (true, cache1)
  | some old => if old == "" then (true, cache1) else (!(newFingerprint == old), cache1)

/-- Non-retryable message fragments of `src/sftp-client.js` lines 142-145. -/
def nonRetryableFragments : List String :=
  ["authentication", "permission denied", "invalid credentials", "authorization",
    "access denied"]

/-- `shouldRetry` of `src/sftp-client.js` lines 139-151: retry unless the
lowercased message contains a non-retryable fragment. -/
def sftpShouldRetry (e : JsError) : Bool :=
  !(nonRetryableFragments.any fun phrase =>
    containsSubList phrase.toList (lowerList e.message.toList))

/-- `src/sftp-client.js` `uploadFileToSFTP` (lines 77-154): check the
fingerprint cache first (which already stores the new fingerprint), skip with
`ok false` when unchanged, otherwise run the transfer under `withRetry` with
`maxRetries: 5, initialDelay: 3000, maxDelay: 60000, exponential: true`.
Returns the wrapped outcome together with the attempt count and delays, and
the cache as left behind by the call. -/
def uploadFileToSFTP (newFingerprint localFilePath remoteFilePath : String)
    (attempts : Nat → Except JsError Bool) (cache : FingerprintCache) :
    (Except JsError Bool × Nat × List Nat) × FingerprintCache :=
  let checked := hasFileChanged newFingerprint localFilePath remoteFilePath cache
  if !checked.1 then ((Except.ok false, 0, []), checked.2)
  else (withRetry attempts 5 3000 60000 true sftpShouldRetry, checked.2)

/-- Modelled from the claim's words (C2): case-insensitive containment of one
of the six listed keywords, for comparison with the code's regex test. -/
def c2Keywords : List String :=
  ["non-emergency", "non emergency", "non-urgent", "non urgent", "routine", "scheduled"]

/-- Modelled from the claim's words (C2): does the nature contain one of the
six keywords, case-insensitively? -/
def c2KeywordMatch (nature : String) : Bool :=
  c2Keywords.any fun kw => containsSubList kw.toList (lowerList nature.toList)

/-- Modelled from the claim's words (C2): keyword match gives the
non-emergency code 395; otherwise priority id 1559 gives 395 and anything
else gives the emergency code 390. -/
def claimC2Classification (nature : String) (priorityId : Option String) : String :=
  if c2KeywordMatch nature then "395"
  else if priorityId = some "1559" then "395"
  else "390"

/-- Modelled from the claim's words (C5): each name exactly once, in order of
first occurrence. -/
def firstOccurrenceDedup : List String → List String
  | [] => []
  | a :: l => a :: firstOccurrenceDedup (l.filter fun x => !(x == a))
termination_by l => l.length
decreasing_by
  simpa using Nat.lt_succ_of_le (List.length_filter_le _ _)

/-- Text escaping performed by xmlbuilder2 when rendering a `.txt(...)` node,
used by the `part_003` serializer: ampersand and angle brackets become
entities; everything else is verbatim. -/
def xb2EscapeChar (c : Char) : List Char :=
  if c == '&' then "&amp;".toList
  else if c == '<' then "&lt;".toList
  else if c == '>' then "&gt;".toList
  else [c]

/-- Escape a whole character list as xmlbuilder2 renders text content. -/
def xb2EscapeList : List Char → List Char
  | [] => []
  | c :: rest => xb2EscapeChar c ++ xb2EscapeList rest

/-- Escape a string as xmlbuilder2 renders text content. -/
def xb2EscapeText (s : String) : String := String.mk (xb2EscapeList s.toList)

/-- Scanner for `isEscapedText`. The first argument holds the characters
still expected to complete a pending entity; in the empty-pending state a raw
`<` fails, a `&` selects the entity to expect from the next character, and
anything else is plain text. -/
def escGo : List Char → List Char → Bool
  | _ :: _, [] => false
  | e :: es, c :: rest => if c == e then escGo es rest else false
  | [], [] => true
  | [], c :: rest =>
    if c == '<' then false
    else if c == '&' then
      if rest.head? == some 'a' then escGo "amp;".toList rest
      else if rest.head? == some 'l' then escGo "lt;".toList rest
      else if rest.head? == some 'g' then escGo "gt;".toList rest
      else false
    else escGo [] rest

/-- Modelled from the claim's words (C6): text content is escaped when it has
no raw `<` and every `&` begins one of the entities `&amp;` `&lt;` `&gt;`. -/
def isEscapedText (l : List Char) : Bool := escGo [] l

/-- Local variables interpolated by the template literal of
`src/xml-generator.js` lines 281-306, one field per interpolated expression. -/
structure CanonicalXmlVars where
  callId : String := ""
  loggedOn : String := ""
  streetAddress : String := ""
  city : String := ""
  state : String := ""
  zip : String := ""
  nature : String := ""
  unitName : String := ""
  responseMode : String := ""
  name : String := ""
  callNatureDescription : String := ""
  unitEnRouteTime : String := ""
  unitArrivedOnSceneTime : String := ""
  unitAtPatientTime : String := ""
  unitClearedTime : String := ""
  unitBackInServiceTime : String := ""
  latitude : String := ""
  longitude : String := ""
  patientFirstName : String := ""
  patientLastName : String := ""
  formattedDOB : String := ""
deriving DecidableEq

/-- The tag/text pairs of the fixed `CadIncident` schema as rendered by
`src/xml-generator.js` lines 281-306, in document order. -/
def canonicalElements (v : CanonicalXmlVars) : List (String × String) :=
  [("IncidentNumber", v.callId),
   ("IncidentOrOnset", v.loggedOn),
   ("DispatchNotified", v.loggedOn),
   ("IncidentAddress1", v.streetAddress),
   ("IncidentCity", v.city),
   ("IncidentState", v.state),
   ("IncidentZip", v.zip),
   ("CadDispatchText", v.nature),
   ("EmsUnitCallSign", v.unitName),
   ("UnitNotifiedByDispatch", v.loggedOn),
   ("ResponseModeToScene", v.responseMode),
   ("CallNature", v.name),
   ("CallNatureDescription", v.callNatureDescription),
   ("UnitEnRoute", v.unitEnRouteTime),
   ("UnitArrivedOnScene", v.unitArrivedOnSceneTime),
   ("UnitAtPatient", v.unitAtPatientTime),
   ("UnitCleared", v.unitClearedTime),
   ("UnitBackInService", v.unitBackInServiceTime),
   ("SceneGpsLocationLat", v.latitude),
   ("SceneGpsLocationLong", v.longitude),
   ("PatientFirstName", v.patientFirstName),
   ("PatientLastName", v.patientLastName),
   ("PatientDOB", v.formattedDOB)]

/-- The fixed tag order of the canonical template. -/
def canonicalTagList : List String :=
  ["IncidentNumber", "IncidentOrOnset", "DispatchNotified", "IncidentAddress1",
   "IncidentCity", "IncidentState", "IncidentZip", "CadDispatchText",
   "EmsUnitCallSign", "UnitNotifiedByDispatch", "ResponseModeToScene",
   "CallNature", "CallNatureDescription", "UnitEnRoute", "UnitArrivedOnScene",
   "UnitAtPatient", "UnitCleared", "UnitBackInService", "SceneGpsLocationLat",
   "SceneGpsLocationLong", "PatientFirstName", "PatientLastName", "PatientDOB"]

/-- One rendered line of the canonical template: two-space indent, opening
tag, the interpolated value verbatim, closing tag. -/
def renderElement (e : String × String) : String :=
  "  <" ++ e.1 ++ ">" ++ e.2 ++ "</" ++ e.1 ++ ">"

/-- Newline-joined rendering of a list of elements. -/
def renderElements : List (String × String) → String
  | [] => ""
  | e :: rest => renderElement e ++ "\n" ++ renderElements rest

/-- `src/xml-generator.js` lines 281-306: the template-literal document. Every
interpolated value is inserted verbatim — the template performs no escaping. -/
def canonicalXmlRender (v : CanonicalXmlVars) : String :=
  "<?xml version=\"1.0\" encoding=\"UTF-8\"?>\n" ++
    "<CadIncident xmlns_xsi=\"http://www.w3.org/2001/XMLSchema-instance\">\n" ++
    renderElements (canonicalElements v) ++ "</CadIncident>"

/-- The activity list of the C3 cascade scenario: statuses 5, 6, 8 for one
unit, with timestamps T1, T2, T3. -/
def c3Activity : List ActivityEntry :=
  [{ Type' := "Unit", Name := "E1", StatusId := 5, Timestamp := "T1" },
   { Type' := "Unit", Name := "E1", StatusId := 6, Timestamp := "T2" },
   { Type' := "Unit", Name := "E1", StatusId := 8, Timestamp := "T3" }]

/-- C1: the response-mode code in the XML `ResponseModeToScene` element is
claimed to equal the code behind the tabular Response Mode value for the same
input. Evaluated on the code, both pipelines disagree: for priority id 1560
and a keyword-free nature, `part_003`'s XML sink emits 390 while its tabular
sink emits 395; for a nature containing "routine" with priority id 1560, the
canonical generator emits 395 while `sheets-logger-new.js` backs its label
with 390. -/
theorem c1_cross_sink_divergence :
    part003XmlResponseMode { Nature := "PERSON DOWN", Priority := some "1560" } = "390"
  ∧ part003SheetResponseMode { Nature := "PERSON DOWN", Priority := some "1560" } = "395"
  ∧ srcGenResponseModeOf { Nature := "Routine transport", Priority := some "1560" } = "395"
  ∧ sheetsLoggerResponseModeOf { Nature := "Routine transport", Priority := some "1560" } = "390"
  ∧ sheetsLoggerResponseModeText "390" = "Lights & Sirens"
  ∧ ("390" : String) ≠ "395" :=
  ⟨rfl, rfl, rfl, rfl, rfl, by decide⟩

/-- C3: on activity `[{status 5, T1}, {status 6, T2}, {status 8, T3}]` the
claim expects en-route T1, on-scene T2, at-patient T2, cleared T3 and
back-in-service T3 in both sinks. Evaluated on the code, the XML derivation
agrees, but the tabular derivation leaves back-in-service empty: its fallback
chain consults only statuses 9 and 2, never 8. -/
theorem c3_cascade_eval :
    part003XmlTimes {} c3Activity =
      { enRoute := "T1", onScene := "T2", atPatient := "T2",
        cleared := "T3", backInService := "T3" }
  ∧ part003SheetTimes {} c3Activity =
      { enRoute := "T1", onScene := "T2", atPatient := "T2",
        cleared := "T3", backInService := "" } :=
  ⟨rfl, rfl⟩

/-- A single status-0 Available entry with timestamp TA (C4 scenario). -/
def c4ActivityAvailable0 : List ActivityEntry :=
  [{ Type' := "Unit", Name := "U1", StatusId := 0, Timestamp := "TA" }]

/-- A single status-2 Available entry with timestamp TA (C4 scenario). -/
def c4ActivityAvailable2 : List ActivityEntry :=
  [{ Type' := "Unit", Name := "U1", StatusId := 2, Timestamp := "TA" }]

/-- A single status-9 Returning entry with timestamp T9 (C4 scenario). -/
def c4ActivityReturning9 : List ActivityEntry :=
  [{ Type' := "Unit", Name := "U1", StatusId := 9, Timestamp := "T9" }]

/-- An incident carrying only a closed-timestamp TC (C4 scenario). -/
def c4Call : CallData := { ClosedOn := "TC" }

/-- C4: the claim's cascade for cleared is status 8, else status 0 or 2, else
the closed-timestamp. Evaluated on the code: a status-0 entry is ignored by
both sinks (cleared falls to the closed-timestamp, not to TA as claimed); a
status-2 entry is also ignored by the tabular sink; and a status-9 entry —
outside the claim's 8/0/2 set — preempts the closed-timestamp in the XML sink
and supplies back-in-service, which the claim says must be absent. -/
theorem c4_cleared_eval :
    (part003XmlTimes c4Call c4ActivityAvailable0).cleared = "TC"
  ∧ (part003SheetTimes c4Call c4ActivityAvailable0).cleared = "TC"
  ∧ (part003SheetTimes c4Call c4ActivityAvailable2).cleared = "TC"
  ∧ (part003XmlTimes c4Call c4ActivityReturning9).cleared = "T9"
  ∧ (part003XmlTimes c4Call c4ActivityReturning9).backInService = "T9" :=
  ⟨rfl, rfl, rfl, rfl, rfl⟩

/-- A lone activity entry whose actor-type tag is Person, not Unit. -/
def c9PersonActivity : List ActivityEntry :=
  [{ Type' := "Person", Name := "John Smith", StatusId := 5, Timestamp := "TP" }]

/-- C9: the claim says only `Type: 'Unit'` activity entries may supply
lifecycle timestamps. Evaluated on the code: `part_003`'s `activityEvent`
matches on `StatusId` alone, so a Person-tagged status-5 entry supplies the
en-route timestamp in both of that script's sinks. -/
theorem c9_actor_type_eval :
    (part003XmlTimes {} c9PersonActivity).enRoute = "TP"
  ∧ (part003SheetTimes {} c9PersonActivity).enRoute = "TP"
  ∧ c9PersonActivity.all (fun e => e.Type' == "Person") = true :=
  ⟨rfl, rfl, rfl⟩

/-- Upload attempts that always fail with a retryable network error. -/
def c8FailAttempts : Nat → Except JsError Bool :=
  fun _ => Except.error { message := "connection reset" }

/-- C8: the claim says the fingerprint cache changes only on final transfer
success. Evaluated on the code: starting from an empty cache, a delivery whose
every attempt fails still leaves the new fingerprint in the cache (it is
written by `hasFileChanged` before any attempt), the wrapped result is the
error after six attempts, and a repeat of the same failed delivery is then
skipped as unchanged with zero transfer attempts. -/
theorem c8_cache_poisoning_eval :
    mapGet ([] : FingerprintCache) "inc.xml:/in/inc.xml" = none
  ∧ (uploadFileToSFTP "h1" "inc.xml" "/in/inc.xml" c8FailAttempts []).2 =
      [("inc.xml:/in/inc.xml", "h1")]
  ∧ (uploadFileToSFTP "h1" "inc.xml" "/in/inc.xml" c8FailAttempts []).1.1 =
      Except.error { message := "connection reset" }
  ∧ (uploadFileToSFTP "h1" "inc.xml" "/in/inc.xml" c8FailAttempts []).1.2.1 = 6
  ∧ (uploadFileToSFTP "h1" "inc.xml" "/in/inc.xml" c8FailAttempts
      [("inc.xml:/in/inc.xml", "h1")]).1 = (Except.ok false, 0, []) :=
  ⟨rfl, rfl, rfl, rfl, rfl⟩

/-- C2 counterexample: the code's regex also matches `nonemergency`, which
contains none of the six listed keywords, so the shared resolver returns 395
where the claim requires 390; and `part_003`'s XML variant returns 395 for a
missing priority id where the claim requires the default 390. -/
theorem c2_counterexample :
    mapPriorityToEsoCode "1560" "nonemergency" = "395"
  ∧ c2KeywordMatch "nonemergency" = false
  ∧ claimC2Classification "nonemergency" (some "1560") = "390"
  ∧ part003XmlResponseMode { Nature := "PERSON DOWN", Priority := none } = "395"
  ∧ claimC2Classification "PERSON DOWN" none = "390" :=
  ⟨rfl, rfl, rfl, rfl, rfl⟩

/-- Canonical-template variables with a markup character in the nature. -/
def c6Vars : CanonicalXmlVars := { nature := "a<b" }

/-- C6 counterexample: the template-literal serializer of
`src/xml-generator.js` inserts the nature verbatim, so the rendered document
contains the unescaped fragment, violating the claim that every text value is
escaped. -/
theorem c6_counterexample :
    ("CadDispatchText", "a<b") ∈ canonicalElements c6Vars
  ∧ isEscapedText "a<b".toList = false
  ∧ containsSubList "<CadDispatchText>a<b</CadDispatchText>".toList
      (canonicalXmlRender c6Vars).toList = true :=
  ⟨by decide, rfl, by decide⟩

/-- Head of a filtered list satisfies the filter predicate. -/
theorem head?_filter_sat {α : Type} (p : α → Bool) :
    ∀ (l : List α) (x : α), (l.filter p).head? = some x → p x = true := by
  intro l
  induction l with
  | nil => intro x h; simp [List.filter] at h
  | cons a as ih =>
    intro x h
    by_cases hp : p a = true
    · rw [List.filter_cons_of_pos hp] at h
      simp at h
      subst h
      exact hp
    · rw [List.filter_cons_of_neg (by simpa using hp)] at h
      exact ih x h

/-- C10: in the single-unit serializer and sheet-writer variants, the two
selection routines agree; a nonempty selected unit name always passes the
validity test (at most nine characters, ASCII alphanumeric); and when every
comma-split `UnitsCsv` candidate and every `Type: 'Unit'` dispatch name fails
the test, the selected unit name is empty. -/
theorem c10_unit_validation :
    ∀ (call : CallData) (dispatches : List DispatchEntry),
      srcGenUnitName call dispatches = sheetsLoggerUnitName call dispatches
      ∧ (srcGenUnitName call dispatches ≠ "" →
          validUnitStr (srcGenUnitName call dispatches) = true)
      ∧ ((∀ u ∈ (jsSplitComma call.UnitsCsv).map jsTrim, validUnitStr u = false) →
         (∀ d ∈ dispatches, d.Type' = "Unit" → validUnitStr d.Name = false) →
         srcGenUnitName call dispatches = "") := by
  intro call dispatches
  refine ⟨rfl, ?_, ?_⟩
  · intro hne
    unfold srcGenUnitName at hne ⊢
    cases hcsv : (if call.UnitsCsv == "" then none
        else ((jsSplitComma call.UnitsCsv).map jsTrim).find? validUnitStr) with
    | some u =>
      simp only [hcsv]
      by_cases hempty : (call.UnitsCsv == "") = true
      · rw [if_pos hempty] at hcsv
        exact absurd hcsv (by simp)
      · rw [if_neg (by simpa using hempty)] at hcsv
        exact List.find?_some hcsv
    | none =>
      simp only [hcsv] at hne ⊢
      cases hh : (dispatches.filter fun d =>
          d.Type' == "Unit" && !(d.Name == "") && validUnitStr d.Name).head? with
      | some d =>
        simp only [hh]
        have hp := head?_filter_sat _ dispatches d hh
        have : validUnitStr d.Name = true := by
          cases h1 : (d.Type' == "Unit") <;> cases h2 : (!(d.Name == "")) <;>
            simp [h1, h2] at hp <;> simp [hp]
        exact this
      | none =>
        simp only [hh] at hne
        exact absurd rfl hne
  · intro h1 h2
    unfold srcGenUnitName
    have hfind : ((jsSplitComma call.UnitsCsv).map jsTrim).find? validUnitStr = none :=
      List.find?_eq_none.mpr (by intro x hx; simp [h1 x hx])
    have hfilter : (dispatches.filter fun d =>
        d.Type' == "Unit" && !(d.Name == "") && validUnitStr d.Name) = [] := by
      rw [List.filter_eq_nil_iff]
      intro d hd
      by_cases ht : d.Type' = "Unit"
      · simp [ht, h2 d hd ht]
      · simp [ht]
    by_cases hempty : (call.UnitsCsv == "") = true
    · simp [hempty, hfilter]
    · simp [hempty, hfind, hfilter]

/-- Membership over an appended list splits as a disjunction. -/
theorem memB_append (x : String) : ∀ l1 l2, memB x (l1 ++ l2) = (memB x l1 || memB x l2) := by
  intro l1 l2
  induction l1 with
  | nil => simp [memB]
  | cons y ys ih => simp [memB, ih, Bool.or_assoc]

/-- The JS-Set fold over any accumulator appends the first-occurrence dedup of
the not-yet-seen elements. -/
theorem jsSetFold_eq (l : List String) :
    ∀ acc : List String,
      l.foldl (fun acc a => if memB a acc then acc else acc ++ [a]) acc
        = acc ++ firstOccurrenceDedup (l.filter fun x => !(memB x acc)) := by
  induction l with
  | nil => intro acc; simp [firstOccurrenceDedup]
  | cons a l ih =>
    intro acc
    by_cases h : memB a acc = true
    · rw [List.foldl_cons]
      rw [if_pos h]
      rw [ih acc]
      congr 2
      rw [List.filter_cons_of_neg (by simp [h])]
    · rw [List.foldl_cons]
      rw [if_neg h]
      rw [ih (acc ++ [a])]
      rw [List.filter_cons_of_pos (by simp [h])]
      rw [firstOccurrenceDedup]
      rw [List.filter_filter]
      have hpt : (l.filter fun x => !(memB x (acc ++ [a])))
          = l.filter fun x => !(x == a) && !(memB x acc) := by
        apply List.filter_congr
        intro x _
        rw [memB_append]
        have : memB x [a] = (x == a) := by simp [memB]
        rw [this, Bool.not_or, Bool.and_comm]
      rw [hpt]
      simp [List.append_assoc]

/-- Membership is preserved by the first-occurrence dedup. -/
theorem mem_firstOccurrenceDedup_aux :
    ∀ (n : Nat) (l : List String), l.length ≤ n →
      ∀ x, (x ∈ firstOccurrenceDedup l ↔ x ∈ l) := by
  intro n
  induction n with
  | zero =>
    intro l hl x
    have : l = [] := List.length_eq_zero.mp (Nat.le_zero.mp hl)
    subst this
    simp [firstOccurrenceDedup]
  | succ n ih =>
    intro l hl x
    cases l with
    | nil => simp [firstOccurrenceDedup]
    | cons a t =>
      rw [firstOccurrenceDedup]
      have ht : (t.filter fun y => !(y == a)).length ≤ n :=
        le_trans (List.length_filter_le _ _) (Nat.le_of_succ_le_succ hl)
      simp only [List.mem_cons]
      constructor
      · rintro (rfl | hx)
        · exact Or.inl rfl
        · exact Or.inr (List.mem_of_mem_filter ((ih _ ht x).mp hx))
      · rintro (rfl | hx)
        · exact Or.inl rfl
        · by_cases hxa : x = a
          · exact Or.inl hxa
          · exact Or.inr ((ih _ ht x).mpr (List.mem_filter.mpr ⟨hx, by simp [hxa]⟩))

/-- Membership form of `mem_firstOccurrenceDedup_aux`. -/
theorem mem_firstOccurrenceDedup (l : List String) (x : String) :
    x ∈ firstOccurrenceDedup l ↔ x ∈ l :=
  mem_firstOccurrenceDedup_aux l.length l le_rfl x

/-- The first-occurrence dedup has no duplicates. -/
theorem nodup_firstOccurrenceDedup_aux :
    ∀ (n : Nat) (l : List String), l.length ≤ n → (firstOccurrenceDedup l).Nodup := by
  intro n
  induction n with
  | zero =>
    intro l hl
    have : l = [] := List.length_eq_zero.mp (Nat.le_zero.mp hl)
    subst this
    simp [firstOccurrenceDedup]
  | succ n ih =>
    intro l hl
    cases l with
    | nil => simp [firstOccurrenceDedup]
    | cons a t =>
      rw [firstOccurrenceDedup]
      have ht : (t.filter fun y => !(y == a)).length ≤ n :=
        le_trans (List.length_filter_le _ _) (Nat.le_of_succ_le_succ hl)
      refine List.nodup_cons.mpr ⟨?_, ih _ ht⟩
      intro hmem
      have := List.mem_filter.mp ((mem_firstOccurrenceDedup _ a).mp hmem)
      simp at this

/-- Nodup form of `nodup_firstOccurrenceDedup_aux`. -/
theorem nodup_firstOccurrenceDedup (l : List String) : (firstOccurrenceDedup l).Nodup :=
  nodup_firstOccurrenceDedup_aux l.length l le_rfl

/-- C5: the resolved roster equals the first-occurrence dedup of the
concatenation of activity-derived names (first) and dispatch-derived names
(second), and every name occurring in that concatenation appears in the
roster exactly once, at the position of its first occurrence. -/
theorem c5_roster_dedup :
    ∀ (activity : List ActivityEntry) (dispatches : List DispatchEntry),
      part003UniqueUnits activity dispatches
        = firstOccurrenceDedup (part003ActivityUnits activity ++ part003DispatchUnits dispatches)
      ∧ ∀ u, u ∈ part003ActivityUnits activity ++ part003DispatchUnits dispatches →
          List.count u (part003UniqueUnits activity dispatches) = 1 := by
  intro activity dispatches
  have hmain : part003UniqueUnits activity dispatches
      = firstOccurrenceDedup (part003ActivityUnits activity ++ part003DispatchUnits dispatches) := by
    unfold part003UniqueUnits jsSetDedup
    rw [jsSetFold_eq]
    have : ((part003ActivityUnits activity ++ part003DispatchUnits dispatches).filter
        fun x => !(memB x [])) = part003ActivityUnits activity ++ part003DispatchUnits dispatches := by
      apply List.filter_eq_self.mpr
      intro x _
      simp [memB]
    rw [this]
    simp
  refine ⟨hmain, ?_⟩
  intro u hu
  rw [hmain]
  exact List.count_eq_one_of_mem (nodup_firstOccurrenceDedup _)
    ((mem_firstOccurrenceDedup _ u).mpr hu)

/-- Activity log for the dedup witness: the unit E1 twice. -/
def c5WitnessActivity : List ActivityEntry :=
  [{ Type' := "Unit", Name := "E1", StatusId := 5, Timestamp := "T1" },
   { Type' := "Unit", Name := "E1", StatusId := 6, Timestamp := "T2" }]

/-- Dispatch log for the dedup witness: E1 again, plus M7. -/
def c5WitnessDispatches : List DispatchEntry :=
  [{ Type' := "Unit", Name := "E1" }, { Type' := "Unit", Name := "M7" }]

/-- Witness for C5 at a concrete roster where E1 occurs in both sources. -/
theorem c5_witness :
    List.count "E1" (part003UniqueUnits c5WitnessActivity c5WitnessDispatches) = 1 :=
  (c5_roster_dedup c5WitnessActivity c5WitnessDispatches).2 "E1" (by decide)

/-- Text escaped by the xmlbuilder2 renderer always passes the escapedness
check: no raw angle bracket, and every ampersand starts an entity. -/
theorem isEscapedText_xb2EscapeList : ∀ l : List Char, isEscapedText (xb2EscapeList l) = true := by
  intro l
  induction l with
  | nil => rfl
  | cons c rest ih =>
    rw [xb2EscapeList]
    by_cases h1 : (c == '&') = true
    · have hch : xb2EscapeChar c = "&amp;".toList := by simp [xb2EscapeChar, h1]
      rw [hch]
      exact ih
    · by_cases h2 : (c == '<') = true
      · have hch : xb2EscapeChar c = "&lt;".toList := by simp [xb2EscapeChar, h1, h2]
        rw [hch]
        exact ih
      · by_cases h3 : (c == '>') = true
        · have hch : xb2EscapeChar c = "&gt;".toList := by simp [xb2EscapeChar, h1, h2, h3]
          rw [hch]
          exact ih
        · have hch : xb2EscapeChar c = [c] := by simp [xb2EscapeChar, h1, h2, h3]
          rw [hch]
          have hstep : isEscapedText (c :: xb2EscapeList rest)
              = isEscapedText (xb2EscapeList rest) := by
            simp [isEscapedText, escGo, h1, h2]
          simpa [hstep] using ih

/-- C6 (amended): the xmlbuilder2-based serializer escapes `&`, `<`, `>` in
every text value it renders, so its text content is always escaped; and the
template serializer renders the full fixed schema, every element present, for
every input. -/
theorem c6_amended_thm :
    (∀ s : String, isEscapedText (xb2EscapeText s).toList = true)
  ∧ ∀ v : CanonicalXmlVars, (canonicalElements v).map Prod.fst = canonicalTagList :=
  ⟨fun s => isEscapedText_xb2EscapeList s.toList, fun _ => rfl⟩

/-- Splitting a leading-run test along an append of patterns. -/
theorem startsWithList_append (p q : List Char) :
    ∀ l, startsWithList (p ++ q) l
      = (startsWithList p l && startsWithList q (l.drop p.length)) := by
  induction p with
  | nil => intro l; simp [startsWithList]
  | cons x ps ih =>
    intro l
    cases l with
    | nil => simp [startsWithList]
    | cons c cs => simp [startsWithList, ih, Bool.and_assoc]

/-- A leading run of the shape `non`, separator, tail matches the regex
alternative `non.?<tail>` when the separator is matched by the dot. -/
theorem nonDotTailAt_of_sep (tail : List Char) (sep : Char) (hsep : dotChar sep = true) :
    ∀ l, startsWithList (['n', 'o', 'n'] ++ sep :: tail) l = true → nonDotTailAt tail l = true := by
  intro l h
  rw [startsWithList_append] at h
  obtain ⟨h1, h2⟩ := Bool.and_eq_true_iff.mp h
  have h2' : startsWithList (sep :: tail) (l.drop 3) = true := by simpa using h2
  clear h2
  unfold nonDotTailAt
  rw [h1]
  cases hd : l.drop 3 with
  | nil => rw [hd] at h2'; simp [startsWithList] at h2'
  | cons c rest =>
    rw [hd] at h2'
    rw [startsWithList] at h2'
    obtain ⟨hc, ht⟩ := Bool.and_eq_true_iff.mp h2'
    have hc' : c = sep := (beq_iff_eq.mp hc).symm
    subst hc'
    simp [ht, hsep]

/-- A leading `non-emergency` matches the regex alternatives. -/
theorem altAt_kwNonHyphenEmergency :
    ∀ l, startsWithList "non-emergency".toList l = true → nonEmergencyAlternativesAt l = true := by
  intro l h
  have e : "non-emergency".toList = ['n', 'o', 'n'] ++ '-' :: "emergency".toList := rfl
  rw [e] at h
  have hm := nonDotTailAt_of_sep "emergency".toList '-' (by decide) l h
  unfold nonEmergencyAlternativesAt
  rw [hm]
  simp

/-- A leading `non emergency` matches the regex alternatives. -/
theorem altAt_kwNonSpaceEmergency :
    ∀ l, startsWithList "non emergency".toList l = true → nonEmergencyAlternativesAt l = true := by
  intro l h
  have e : "non emergency".toList = ['n', 'o', 'n'] ++ ' ' :: "emergency".toList := rfl
  rw [e] at h
  have hm := nonDotTailAt_of_sep "emergency".toList ' ' (by decide) l h
  unfold nonEmergencyAlternativesAt
  rw [hm]
  simp

/-- A leading `non-urgent` matches the regex alternatives. -/
theorem altAt_kwNonHyphenUrgent :
    ∀ l, startsWithList "non-urgent".toList l = true → nonEmergencyAlternativesAt l = true := by
  intro l h
  have e : "non-urgent".toList = ['n', 'o', 'n'] ++ '-' :: "urgent".toList := rfl
  rw [e] at h
  have hm := nonDotTailAt_of_sep "urgent".toList '-' (by decide) l h
  unfold nonEmergencyAlternativesAt
  rw [hm]
  simp

/-- A leading `non urgent` matches the regex alternatives. -/
theorem altAt_kwNonSpaceUrgent :
    ∀ l, startsWithList "non urgent".toList l = true → nonEmergencyAlternativesAt l = true := by
  intro l h
  have e : "non urgent".toList = ['n', 'o', 'n'] ++ ' ' :: "urgent".toList := rfl
  rw [e] at h
  have hm := nonDotTailAt_of_sep "urgent".toList ' ' (by decide) l h
  unfold nonEmergencyAlternativesAt
  rw [hm]
  simp

/-- A leading `routine` matches the regex alternatives. -/
theorem altAt_kwRoutine :
    ∀ l, startsWithList "routine".toList l = true → nonEmergencyAlternativesAt l = true := by
  intro l h
  unfold nonEmergencyAlternativesAt
  rw [h]
  simp

/-- A leading `scheduled` matches the regex alternatives. -/
theorem altAt_kwScheduled :
    ∀ l, startsWithList "scheduled".toList l = true → nonEmergencyAlternativesAt l = true := by
  intro l h
  unfold nonEmergencyAlternativesAt
  rw [h]
  simp

/-- A contiguous occurrence of a pattern whose leading runs all match the
alternatives forces the scan to succeed. -/
theorem scanList_of_contains (kw : List Char)
    (hm : ∀ suffix, startsWithList kw suffix = true → nonEmergencyAlternativesAt suffix = true) :
    ∀ l, containsSubList kw l = true → scanList l = true := by
  intro l
  induction l with
  | nil =>
    intro h
    rw [containsSubList] at h
    exact absurd (hm [] h) (by decide)
  | cons c rest ih =>
    intro h
    rw [containsSubList] at h
    rw [scanList]
    rcases Bool.or_eq_true_iff.mp h with h' | h'
    · simp [hm _ h']
    · simp [ih h']

/-- A case-insensitive occurrence of one of the six claimed keywords makes
the code's regex test succeed. -/
theorem regex_of_c2KeywordMatch (nature : String) (h : c2KeywordMatch nature = true) :
    nonEmergencyRegexMatch nature = true := by
  unfold c2KeywordMatch at h
  rw [List.any_eq_true] at h
  obtain ⟨kw, hkw, hc⟩ := h
  unfold nonEmergencyRegexMatch
  simp only [c2Keywords, List.mem_cons, List.not_mem_nil, or_false] at hkw
  rcases hkw with rfl | rfl | rfl | rfl | rfl | rfl
  · exact scanList_of_contains _ altAt_kwNonHyphenEmergency _ hc
  · exact scanList_of_contains _ altAt_kwNonSpaceEmergency _ hc
  · exact scanList_of_contains _ altAt_kwNonHyphenUrgent _ hc
  · exact scanList_of_contains _ altAt_kwNonSpaceUrgent _ hc
  · exact scanList_of_contains _ altAt_kwRoutine _ hc
  · exact scanList_of_contains _ altAt_kwScheduled _ hc

/-- C2 (amended): the canonical generator's inline response-mode logic agrees
with the shared resolver `mapPriorityToEsoCode` on every nature and priority
id; the classification is 395 whenever the nature matches the code's regex —
in particular whenever it contains one of the six claimed keywords (keyword
precedence); when the regex does not match, id 1559 gives 395 and anything
else gives 390; but the `part_003` XML variant uses only the priority map
with the inverted default: 1560 gives 390, 1559 gives 395, and anything
else — unrecognized or missing — gives 395, not 390. -/
theorem c2_amended_thm :
    (∀ nature priorityId : String,
        srcGenResponseMode nature priorityId = mapPriorityToEsoCode priorityId nature)
  ∧ (∀ nature priorityId : String, nonEmergencyRegexMatch nature = true →
        mapPriorityToEsoCode priorityId nature = "395")
  ∧ (∀ nature priorityId : String, c2KeywordMatch nature = true →
        mapPriorityToEsoCode priorityId nature = "395")
  ∧ (∀ nature priorityId : String, nonEmergencyRegexMatch nature = false →
        mapPriorityToEsoCode priorityId nature =
          if priorityId = "1559" then "395" else "390")
  ∧ (∀ call : CallData, call.Priority = some "1560" → part003XmlResponseMode call = "390")
  ∧ (∀ call : CallData, call.Priority = some "1559" → part003XmlResponseMode call = "395")
  ∧ (∀ call : CallData, call.Priority ≠ some "1560" → call.Priority ≠ some "1559" →
        part003XmlResponseMode call = "395") := by
  have hregex : ∀ nature priorityId : String, nonEmergencyRegexMatch nature = true →
      mapPriorityToEsoCode priorityId nature = "395" := by
    intro n p hr
    have hne : n ≠ "" := by
      intro he
      subst he
      exact absurd hr (by decide)
    simp [mapPriorityToEsoCode, ESO_RESPONSE_NON_LIGHTS_SIRENS, hr, hne]
  refine ⟨?_, hregex, ?_, ?_, ?_, ?_, ?_⟩
  · intro n p
    by_cases hk : (!(n == "") && nonEmergencyRegexMatch n) = true
    · simp [srcGenResponseMode, mapPriorityToEsoCode, ESO_RESPONSE_NON_LIGHTS_SIRENS, hk]
    · by_cases h1 : (p == "1559") = true
      · simp [srcGenResponseMode, mapPriorityToEsoCode, srcGenResponseModeMap,
          ESO_RESPONSE_NON_LIGHTS_SIRENS, hk, h1]
      · by_cases h2 : (p == "1560") = true
        · simp [srcGenResponseMode, mapPriorityToEsoCode, srcGenResponseModeMap,
            ESO_RESPONSE_LIGHTS_SIRENS, hk, h1, h2]
        · simp [srcGenResponseMode, mapPriorityToEsoCode, srcGenResponseModeMap,
            DEFAULT_RESPONSE_MODE, ESO_RESPONSE_LIGHTS_SIRENS, hk, h1, h2]
  · intro n p hkw
    exact hregex n p (regex_of_c2KeywordMatch n hkw)
  · intro n p h
    by_cases h1 : p = "1559"
    · simp [mapPriorityToEsoCode, ESO_RESPONSE_NON_LIGHTS_SIRENS, h, h1]
    · by_cases h2 : p = "1560"
      · simp [mapPriorityToEsoCode, ESO_RESPONSE_LIGHTS_SIRENS, h, h1, h2]
      · simp [mapPriorityToEsoCode, DEFAULT_RESPONSE_MODE, ESO_RESPONSE_LIGHTS_SIRENS,
          h, h1, h2]
  · intro call h
    unfold part003XmlResponseMode part003PriorityMap
    rw [h]
    simp
  · intro call h
    unfold part003XmlResponseMode part003PriorityMap
    rw [h]
    simp
  · intro call h1 h2
    unfold part003XmlResponseMode part003PriorityMap
    cases hp : call.Priority with
    | none => simp
    | some p =>
      rw [hp] at h1 h2
      have hp1 : p ≠ "1560" := by intro he; exact h1 (by rw [he])
      have hp2 : p ≠ "1559" := by intro he; exact h2 (by rw [he])
      simp [hp1, hp2]

/-- Witness for C2 at concrete natures and priority ids: keyword precedence
on a nature carrying both `routine` and `non-emergency`; a regex match with no
listed keyword (`nonXurgent`) still classified 395; the 1559, 1560 and
unrecognized mappings without keywords; and the `part_003` variant's 390 for
1560, 395 for 1559, and 395 default for an unrecognized id. -/
theorem c2_witness :
    mapPriorityToEsoCode "1560" "Routine transport, non-emergency" = "395"
  ∧ mapPriorityToEsoCode "1560" "nonXurgent" = "395"
  ∧ mapPriorityToEsoCode "1559" "PERSON DOWN" = "395"
  ∧ mapPriorityToEsoCode "1560" "PERSON DOWN" = "390"
  ∧ mapPriorityToEsoCode "8888" "PERSON DOWN" = "390"
  ∧ part003XmlResponseMode { Nature := "PERSON DOWN", Priority := some "1560" } = "390"
  ∧ part003XmlResponseMode { Nature := "PERSON DOWN", Priority := some "1559" } = "395"
  ∧ part003XmlResponseMode { Nature := "STRUCTURE FIRE", Priority := some "1234" } = "395" := by
  refine ⟨?_, ?_, ?_, ?_, ?_, ?_, ?_, ?_⟩
  · exact c2_amended_thm.2.2.1 "Routine transport, non-emergency" "1560" (by decide)
  · exact c2_amended_thm.2.1 "nonXurgent" "1560" (by decide)
  · have := c2_amended_thm.2.2.2.1 "PERSON DOWN" "1559" (by decide)
    simpa using this
  · have := c2_amended_thm.2.2.2.1 "PERSON DOWN" "1560" (by decide)
    simpa using this
  · have := c2_amended_thm.2.2.2.1 "PERSON DOWN" "8888" (by decide)
    simpa using this
  · exact c2_amended_thm.2.2.2.2.1 { Nature := "PERSON DOWN", Priority := some "1560" } rfl
  · exact c2_amended_thm.2.2.2.2.2.1 { Nature := "PERSON DOWN", Priority := some "1559" } rfl
  · exact c2_amended_thm.2.2.2.2.2.2 { Nature := "STRUCTURE FIRE", Priority := some "1234" }
      (by decide) (by decide)

/-- The retry loop on an always-failing, always-retryable attempt sequence
makes exactly `remaining + 1` more attempts and sleeps the exponential
backoff delays for attempts `retryCount`, …, `retryCount + remaining - 1`. -/
theorem withRetryRun_all_fail {α : Type} (fn : Nat → Except JsError α)
    (shouldRetry : JsError → Bool) (initialDelay maxDelay : Nat)
    (hfail : ∀ k, ∃ e, fn k = Except.error e ∧ shouldRetry e = true) :
    ∀ (remaining retryCount : Nat),
      (∃ e, (withRetryRun fn shouldRetry initialDelay maxDelay true retryCount remaining).1
          = Except.error e)
      ∧ (withRetryRun fn shouldRetry initialDelay maxDelay true retryCount remaining).2.1
          = retryCount + remaining + 1
      ∧ (withRetryRun fn shouldRetry initialDelay maxDelay true retryCount remaining).2.2
          = (List.range' retryCount remaining).map
              (backoffDelay true initialDelay maxDelay) := by
  intro remaining
  induction remaining with
  | zero =>
    intro rc
    obtain ⟨e, he, hsr⟩ := hfail rc
    rw [withRetryRun, he]
    exact ⟨⟨e, rfl⟩, rfl, rfl⟩
  | succ r ih =>
    intro rc
    obtain ⟨e, he, hsr⟩ := hfail rc
    rw [withRetryRun, he]
    simp only [hsr, if_true]
    obtain ⟨⟨e', he'⟩, hc, hd⟩ := ih (rc + 1)
    refine ⟨⟨e', he'⟩, ?_, ?_⟩
    · simp only [hc]
      omega
    · simp only [hd]
      rw [List.range'_succ]
      simp

/-- The capped exponential backoff is monotone in the attempt index. -/
theorem backoffDelay_mono (initialDelay maxDelay : Nat) :
    ∀ j k, j ≤ k →
      backoffDelay true initialDelay maxDelay j ≤ backoffDelay true initialDelay maxDelay k := by
  intro j k h
  unfold backoffDelay
  simp only [if_true]
  exact min_le_min (Nat.mul_le_mul le_rfl (Nat.pow_le_pow_right (by norm_num) h)) le_rfl

/-- Mapping a monotone function over consecutive integers yields a chain of
inequalities. -/
theorem chain'_map_range' (f : Nat → Nat) (hf : ∀ j k, j ≤ k → f j ≤ f k) :
    ∀ (n s : Nat), List.Chain' (fun a b => a ≤ b) ((List.range' s n).map f) := by
  intro n
  induction n with
  | zero => intro s; simp
  | succ m ih =>
    intro s
    cases m with
    | zero => simp
    | succ m' =>
      rw [List.range'_succ, List.range'_succ, List.map_cons, List.map_cons, List.chain'_cons]
      refine ⟨hf s (s + 1) (by omega), ?_⟩
      rw [← List.map_cons, ← List.range'_succ]
      exact ih (s + 1)

/-- C7: a transfer failing every attempt with a retryable error is attempted
exactly `maxRetries + 1` times, the inter-attempt delays are the capped
exponential backoff `min(initialDelay * 2 ^ attempt, maxDelay)` for attempts
`0, …, maxRetries - 1`, those delays are monotonically non-decreasing, and the
wrapper reports the failure. -/
theorem c7_retry_bound :
    ∀ {α : Type} (fn : Nat → Except JsError α) (shouldRetry : JsError → Bool)
      (maxRetries initialDelay maxDelay : Nat),
      (∀ k, ∃ e, fn k = Except.error e ∧ shouldRetry e = true) →
      (∃ e, (withRetry fn maxRetries initialDelay maxDelay true shouldRetry).1
          = Except.error e)
      ∧ (withRetry fn maxRetries initialDelay maxDelay true shouldRetry).2.1 = maxRetries + 1
      ∧ (withRetry fn maxRetries initialDelay maxDelay true shouldRetry).2.2
          = (List.range maxRetries).map (backoffDelay true initialDelay maxDelay)
      ∧ List.Chain' (fun a b => a ≤ b)
          (withRetry fn maxRetries initialDelay maxDelay true shouldRetry).2.2 := by
  intro α fn shouldRetry maxRetries initialDelay maxDelay hfail
  obtain ⟨hres, hcount, hdelays⟩ :=
    withRetryRun_all_fail fn shouldRetry initialDelay maxDelay hfail maxRetries 0
  unfold withRetry
  refine ⟨hres, by simpa using hcount, ?_, ?_⟩
  · rw [hdelays, List.range_eq_range']
  · rw [hdelays]
    exact chain'_map_range' _ (backoffDelay_mono initialDelay maxDelay) maxRetries 0

/-- Attempt sequence for the C7 witness: every attempt fails with a timeout. -/
def c7Fn : Nat → Except JsError Bool := fun _ => Except.error { message := "timeout" }

/-- Retry policy for the C7 witness: every error is retryable. -/
def c7Retryable : JsError → Bool := fun _ => true

/-- Witness for C7 with `maxRetries = 2`, `initialDelay = 3000`,
`maxDelay = 60000`: three attempts, failure reported, monotone delays. -/
theorem c7_witness :
    (∃ e, (withRetry c7Fn 2 3000 60000 true c7Retryable).1 = Except.error e)
  ∧ (withRetry c7Fn 2 3000 60000 true c7Retryable).2.1 = 2 + 1
  ∧ (withRetry c7Fn 2 3000 60000 true c7Retryable).2.2
      = (List.range 2).map (backoffDelay true 3000 60000)
  ∧ List.Chain' (fun a b => a ≤ b) (withRetry c7Fn 2 3000 60000 true c7Retryable).2.2 :=
  c7_retry_bound c7Fn c7Retryable 2 3000 60000
    (fun _ => ⟨{ message := "timeout" }, rfl, rfl⟩)

/-- Call for the C10 witness: both `UnitsCsv` candidates carry punctuation. -/
def c10Call : CallData := { UnitsCsv := "ENG-1, MED 2" }

/-- Dispatch list for the C10 witness: a unit name longer than nine
characters with hyphens. -/
def c10Dispatches : List DispatchEntry := [{ Type' := "Unit", Name := "LONG-NAME-1" }]

/-- Witness for C10: every candidate fails the validity test, so the selected
unit name is empty. -/
theorem c10_witness : srcGenUnitName c10Call c10Dispatches = "" :=
  (c10_unit_validation c10Call c10Dispatches).2.2 (by decide) (by decide)
